import Mathlib

/-!
Verification of the KTS Analyzer core data pipeline.

The development shallowly embeds the pipeline of `services/data_service.py`
(loading, melting, numeric/date/identifier cleaning, pivoting, derived
metrics), the orchestration of `controllers/main_controller.py`, and the
date parser of the older `mining_data_analyzer.py`.  Machine floats are
modelled as rationals; a pandas NaN/NA is modelled as `Option.none`;
functions that can raise return `Except String`.
-/

namespace KTS

/-- A raw spreadsheet cell: numeric, text, or empty (an empty cell is read
as NaN, which counts as numeric for dtype purposes). -/
inductive Cell where
  | num (q : ℚ)
  | text (s : String)
  | empty
deriving DecidableEq, Repr

/-- A calendar date; the pipeline only ever constructs dates with day 1. -/
structure Date where
  year : ℕ
  month : ℕ
  day : ℕ
deriving DecidableEq, Repr

/-- Chronological order on dates. -/
def Date.le (a b : Date) : Prop :=
  a.year < b.year ∨ (a.year = b.year ∧
    (a.month < b.month ∨ (a.month = b.month ∧ a.day ≤ b.day)))

instance : DecidableRel Date.le := fun a b =>
  decidable_of_iff (a.year < b.year ∨ (a.year = b.year ∧
    (a.month < b.month ∨ (a.month = b.month ∧ a.day ≤ b.day)))) Iff.rfl

/-- Python str.split with a one-character separator (splits at every
occurrence, keeping empty pieces). -/
def pySplit (sep : Char) (s : String) : List String :=
  (s.data.splitOn sep).map List.asString

/-- Numeric value of a list of decimal digit characters, most significant
first (how a parser reads a digit string). -/
def decVal (l : List Char) : ℕ :=
  l.foldl (fun a c => a * 10 + (c.toNat - 48)) 0

/-- Model of pandas.to_numeric(errors=coerce) on one string: an optional
sign, decimal digits with at most one decimal point.  none models NaN
(including the unparseable case, which coercion turns into NaN).
Exponent notation is not used by the documented input convention and is
not modelled. -/
def to_numeric (s : String) : Option ℚ :=
  let p : ℚ × List Char :=
    match s.data with
    | '-' :: t => (-1, t)
    | '+' :: t => (1, t)
    | l => (1, l)
  match p.2.splitOn '.' with
  | [ip] =>
      if ip ≠ [] ∧ ip.all Char.isDigit then some (p.1 * decVal ip) else none
  | [ip, fp] =>
      if (ip ≠ [] ∨ fp ≠ []) ∧ ip.all Char.isDigit ∧ fp.all Char.isDigit then
        some (p.1 * ((decVal ip : ℚ) + (decVal fp : ℚ) / 10 ^ fp.length))
      else none
  | _ => none

/-- Python str.strip(): remove leading and trailing whitespace. -/
def pystrip (s : String) : String :=
  (((s.data.dropWhile Char.isWhitespace).reverse.dropWhile
      Char.isWhitespace).reverse).asString

/-- Series.str.replace of every "." with "" (data_service.py line 78). -/
def stripDots (s : String) : String :=
  (s.data.filter (fun c => c ≠ '.')).asString

/-- Series.str.replace of every "," with "." (data_service.py line 79). -/
def commaToDot (s : String) : String :=
  (s.data.map (fun c => if c = ',' then '.' else c)).asString

/-- Smallest exponent k with q·10^k integral, when one exists below 31
(a finite-decimal rational, the only numbers the documented inputs carry). -/
def decExp (q : ℚ) : Option ℕ :=
  (List.range 31).find? (fun k => 10 ^ k % q.den == 0)

/-- Render the integer n scaled by 10^(-k) the way Python str() renders a
finite-decimal float: always with a decimal point ("5" becomes "5.0"). -/
def renderDecimal (n : ℤ) (k : ℕ) : String :=
  let sgn := if n < 0 then "-" else ""
  let ds := Nat.toDigits 10 n.natAbs
  if k = 0 then sgn ++ ds.asString ++ ".0"
  else
    let ds := if ds.length ≤ k then List.replicate (k + 1 - ds.length) '0' ++ ds else ds
    sgn ++ (ds.take (ds.length - k)).asString ++ "." ++ (ds.drop (ds.length - k)).asString

/-- Python str() of a float value (what Series.astype(str) produces for a
numeric cell), for finite-decimal rationals; other rationals do not arise
from the modelled inputs and get a sentinel. -/
def pyFloatStr (q : ℚ) : String :=
  match decExp q with
  | some k => renderDecimal (q * (10 : ℚ) ^ k).num k
  | none => "nondecimal"

/-- Series.astype(str) on one cell: NaN prints as "nan". -/
def Cell.pyStr : Cell → String
  | .num q => pyFloatStr q
  | .text s => s
  | .empty => "nan"

/-- Whether a cell is numeric; a pandas column has numeric dtype iff every
cell is numeric or NaN. -/
def Cell.isNumericCell : Cell → Bool
  | .num _ => true
  | .text _ => false
  | .empty => true

/-- The Spanish-to-English month abbreviation map
(data_service.py lines 29-33, self.month_map). -/
def month_map : List (String × String) :=
  [("ene", "Jan"), ("feb", "Feb"), ("mar", "Mar"), ("abr", "Apr"),
   ("may", "May"), ("jun", "Jun"), ("jul", "Jul"), ("ago", "Aug"),
   ("sep", "Sep"), ("oct", "Oct"), ("nov", "Nov"), ("dic", "Dec")]

/-- Series.str.lower().replace(month_map, regex=True)
(data_service.py lines 83-85): lowercase the token, then replace every
occurrence of each Spanish key, in dictionary order. -/
def monthReplace (s : String) : String :=
  month_map.foldl (fun t p => t.replace p.1 p.2) s.toLower

/-- English month abbreviation to month number (case already lowered). -/
def engMonthNum (s : String) : Option ℕ :=
  if s = "jan" then some 1 else if s = "feb" then some 2
  else if s = "mar" then some 3 else if s = "apr" then some 4
  else if s = "may" then some 5 else if s = "jun" then some 6
  else if s = "jul" then some 7 else if s = "aug" then some 8
  else if s = "sep" then some 9 else if s = "oct" then some 10
  else if s = "nov" then some 11 else if s = "dec" then some 12
  else none

/-- Model of pandas.to_datetime on one header token of the documented
convention: a case-insensitive English month abbreviation, a dash, and a
2- or 4-digit year, giving the first day of that month.  Per the input
convention a 2-digit year denotes 20yy; dateutil year windowing outside
that convention is not relied on by any theorem.  A token outside the
grammar makes to_datetime raise, modelled as none. -/
def to_datetime_token (s : String) : Option Date :=
  match pySplit '-' s with
  | [mp, yp] =>
    match engMonthNum mp.toLower with
    | some m =>
      if yp.data ≠ [] ∧ yp.data.all Char.isDigit then
        if yp.length = 2 then some ⟨2000 + decVal yp.data, m, 1⟩
        else if yp.length = 4 then some ⟨decVal yp.data, m, 1⟩
        else none
      else none
    | none => none
  | _ => none

/-- Identifier cleaning (data_service.py lines 103-110): astype(str),
str.strip(), then DataFrame.replace of the exact strings "", "nan" and
"None" by pd.NA. -/
def cleanId (c : Cell) : Option String :=
  let s := pystrip c.pyStr
  if s = "" ∨ s = "nan" ∨ s = "None" then none else some s

/-- Per-cell numeric cleaning (data_service.py lines 76-81).  The branch is
chosen per column: when the whole melted Value column has numeric dtype the
cell passes through; otherwise every cell (numeric ones included) is
stringified, has all dots stripped and commas turned into dots, and is
re-parsed; failures coerce to NaN (none). -/
def cleanValue (columnNumeric : Bool) (c : Cell) : Option ℚ :=
  if columnNumeric then
    match c with
    | .num q => some q
    | _ => none
  else
    to_numeric (commaToDot (stripDots c.pyStr))

/-- The value-cleaning stage applied to a whole Value column. -/
def cleanValueColumn (col : List Cell) : List (Option ℚ) :=
  col.map (cleanValue (col.all Cell.isNumericCell))

/-- A raw sheet as read with header row at index 0: the header labels (the
first three name the identifier columns, the rest are date tokens) and the
data rows. -/
structure RawSheet where
  header : List String
  rows : List (List Cell)

/-- One melted row: the three identifier cells, the date token of the
originating column, and the value cell. -/
structure LongRow where
  cat : Cell
  sub : Cell
  unit : Cell
  date : String
  value : Cell
deriving DecidableEq, Repr

/-- pd.melt with id_vars = the first three columns and value_vars = the
remaining columns (data_service.py lines 64-74): one output row per
(date column, input row) pair, stacked column by column. -/
def melt (s : RawSheet) : List LongRow :=
  (List.range (s.header.length - 3)).flatMap (fun j =>
    s.rows.map (fun r =>
      { cat := r.getD 0 Cell.empty
        sub := r.getD 1 Cell.empty
        unit := r.getD 2 Cell.empty
        date := s.header.getD (3 + j) ""
        value := r.getD (3 + j) Cell.empty }))

/-- One long-format observation row of the prepared DataFrame. -/
structure Obs where
  date : Date
  category : Option String
  subcategory : Option String
  unit : Option String
  value : ℚ
deriving DecidableEq, Repr

/-- Date order lifted to observations (sort_index). -/
def Obs.dateLe (a b : Obs) : Prop := Date.le a.date b.date

instance : DecidableRel Obs.dateLe := fun a b =>
  decidable_of_iff (Date.le a.date b.date) Iff.rfl

/-- The date of a melted row after lowercasing and Spanish-month
replacement (data_service.py lines 83-88). -/
def rowDate (lr : LongRow) : Option Date := to_datetime_token (monthReplace lr.date)

/-- The dtype test on the melted Value column (data_service.py line 76). -/
def meltColNumeric (s : RawSheet) : Bool :=
  ((melt s).map LongRow.value).all Cell.isNumericCell

/-- load_and_prepare_data (data_service.py lines 35-115): reject an empty
sheet; melt; clean values column-wise with failures coerced to NaN;
lowercase and month-replace the date tokens and convert them, raising if
any token fails; drop rows whose Value is NaN (possibly returning an empty
frame); clean the identifier fields; sort by date. -/
def load_and_prepare_data (s : RawSheet) : Except String (List Obs) :=
  if s.rows = [] then .error "The specified sheet is empty."
  else if (melt s).any (fun lr => (rowDate lr).isNone) then
    .error "Failed to parse dates after cleaning. Check date columns."
  else
    .ok (((melt s).filterMap (fun lr =>
      match cleanValue (meltColNumeric s) lr.value, rowDate lr with
      | some v, some d =>
          some { date := d, category := cleanId lr.cat, subcategory := cleanId lr.sub,
                 unit := cleanId lr.unit, value := v }
      | _, _ => none)).insertionSort Obs.dateLe)

/-- MetricName (data_service.py lines 151-156): the non-NA identifier
fields joined with " - ". -/
def metricName (o : Obs) : String :=
  String.intercalate " - " ([o.category, o.subcategory, o.unit].filterMap id)

/-- The wide analysis DataFrame: the date index, the column names in
order, and the cell lookup (none models NaN/absent). -/
structure AnalysisTable where
  dates : List Date
  cols : List String
  cell : Date → String → Option ℚ

/-- pivot_table(index=Date, columns=MetricName, values=Value)
(data_service.py lines 159-163).  The pandas default aggfunc is mean, so a
cell holds the arithmetic mean of every value observed for its
(date, metric) pair; row and column labels come out sorted ascending. -/
def pivot_table (df : List Obs) : AnalysisTable where
  dates := ((df.map Obs.date).dedup).insertionSort Date.le
  cols := ((df.map metricName).dedup).insertionSort (· ≤ ·)
  cell := fun d c =>
    let vs := (df.filter (fun o => decide (o.date = d ∧ metricName o = c))).map Obs.value
    if vs = [] then none else some (vs.sum / (vs.length : ℚ))

/-- Column assignment analysis_df[name] = series: overwrite the values in
place when the column exists, otherwise append it as the last column. -/
def AnalysisTable.setCol (t : AnalysisTable) (name : String) (f : Date → Option ℚ) :
    AnalysisTable where
  dates := t.dates
  cols := if name ∈ t.cols then t.cols else t.cols ++ [name]
  cell := fun d c => if c = name then (if d ∈ t.dates then f d else none) else t.cell d c

/-- Whether p is a leading segment of l. -/
def listPref : List Char → List Char → Bool
  | [], _ => true
  | _ :: _, [] => false
  | a :: as, b :: bs => a = b && listPref as bs

/-- Whether p occurs contiguously in l. -/
def listSub (p : List Char) : List Char → Bool
  | [] => listPref p []
  | b :: bs => listPref p (b :: bs) || listSub p bs

/-- The Python substring test "p in c" used to pick the Ore Mined and
Overburden columns. -/
def strContainsSub (p s : String) : Bool := listSub p.data s.data

/-- DataFrame row sum with skipna=True: NaN cells contribute nothing and
an all-NaN row sums to 0. -/
def sumSkipNA (l : List (Option ℚ)) : ℚ := (l.filterMap id).sum

/-- Series.replace(0, pd.NA) (data_service.py lines 192 and 197). -/
def replaceZeroNA (x : Option ℚ) : Option ℚ := if x = some 0 then none else x

/-- Elementwise Series division where NaN/NA propagates. -/
def divNA (a b : Option ℚ) : Option ℚ :=
  match a, b with
  | some x, some y => some (x / y)
  | _, _ => none

/-- data_service.py lines 168-171: sum all columns containing "Ore Mined". -/
def addTotalOre (t : AnalysisTable) : AnalysisTable :=
  let oreCols := t.cols.filter (fun c => strContainsSub "Ore Mined" c)
  if oreCols = [] then t
  else t.setCol "Total Ore Mined (kt)" (fun d => some (sumSkipNA (oreCols.map (t.cell d))))

/-- data_service.py lines 173-176: sum all columns containing "Overburden". -/
def addTotalOverburden (t : AnalysisTable) : AnalysisTable :=
  let obCols := t.cols.filter (fun c => strContainsSub "Overburden" c)
  if obCols = [] then t
  else t.setCol "Total Overburden (kt)" (fun d => some (sumSkipNA (obCols.map (t.cell d))))

/-- data_service.py lines 178-181: total material from whichever totals
exist. -/
def addTotalMaterial (t : AnalysisTable) : AnalysisTable :=
  let tmCols := ["Total Ore Mined (kt)", "Total Overburden (kt)"].filter
    (fun c => t.cols.contains c)
  if tmCols = [] then t
  else t.setCol "Total Material (kt)" (fun d => some (sumSkipNA (tmCols.map (t.cell d))))

/-- data_service.py lines 188-192: Efficiency = material / fuel with 0 fuel
replaced by NA first. -/
def addEfficiency (t : AnalysisTable) : AnalysisTable :=
  if "Total Material (kt)" ∈ t.cols ∧ "Liter of Diesel Consumed" ∈ t.cols then
    t.setCol "Efficiency (kt per Liter)" (fun d =>
      divNA (t.cell d "Total Material (kt)")
        (replaceZeroNA (t.cell d "Liter of Diesel Consumed")))
  else t

/-- data_service.py lines 194-197: Productivity = material / fleet with 0
fleet replaced by NA first. -/
def addProductivity (t : AnalysisTable) : AnalysisTable :=
  if "Total Material (kt)" ∈ t.cols ∧ "Active Fleet Count (Aprox)" ∈ t.cols then
    t.setCol "Productivity (kt per Fleet)" (fun d =>
      divNA (t.cell d "Total Material (kt)")
        (replaceZeroNA (t.cell d "Active Fleet Count (Aprox)")))
  else t

/-- The empty DataFrame pd.DataFrame(). -/
def emptyTable : AnalysisTable := ⟨[], [], fun _ _ => none⟩

/-- The column names the derived-metric block can assign. -/
def derivedNames : List String :=
  ["Total Ore Mined (kt)", "Total Overburden (kt)", "Total Material (kt)",
   "Efficiency (kt per Liter)", "Productivity (kt per Fleet)"]

/-- get_analysis_dataframe (data_service.py lines 132-204): empty input
gives an empty frame; otherwise the pivot followed by the derived-metric
block.  In the source that block sits in a try/except whose handler only
prints a warning and falls through to returning the table; every column
access in the block is guarded by a membership or nonemptiness test, so in
this embedding the block is total and the handler is unreachable. -/
def get_analysis_dataframe (df : List Obs) : AnalysisTable :=
  if df = [] then emptyTable
  else
    addProductivity (addEfficiency (addTotalMaterial (addTotalOverburden
      (addTotalOre (pivot_table df)))))

/-- run_analysis (main_controller.py lines 58-98) up to the table handed to
report generation; .error is the outcome reported through the catch-all
handler, which aborts the run before any report is produced. -/
def run_analysis (s : RawSheet) : Except String AnalysisTable :=
  match load_and_prepare_data s with
  | .error e => .error e
  | .ok l =>
    if l = [] then .error "No valid data found in the file."
    else
      let adf := get_analysis_dataframe l
      if adf.dates = [] then .error "Failed to create pivot table."
      else .ok adf

/-- The month dictionary of parse_date
(OLD Version/mining_data_analyzer.py lines 197-199), as a lookup. -/
def oldMonths (k : String) : Option String :=
  if k = "ene" then some "01" else if k = "feb" then some "02"
  else if k = "mar" then some "03" else if k = "abr" then some "04"
  else if k = "may" then some "05" else if k = "jun" then some "06"
  else if k = "jul" then some "07" else if k = "ago" then some "08"
  else if k = "sep" then some "09" else if k = "oct" then some "10"
  else if k = "nov" then some "11" else if k = "dic" then some "12"
  else none

/-- pd.to_datetime on the "year-month-01" string parse_date builds: both
pieces must be digit strings and the month must be a valid month number,
otherwise to_datetime raises (modelled as none). -/
def to_datetime_ymd (y m : String) : Option Date :=
  if y.data ≠ [] ∧ y.data.all Char.isDigit ∧ m.data ≠ [] ∧ m.data.all Char.isDigit
      ∧ 1 ≤ decVal m.data ∧ decVal m.data ≤ 12 then
    some ⟨decVal y.data, decVal m.data, 1⟩
  else none

/-- parse_date (OLD Version/mining_data_analyzer.py lines 195-207): split
on every dash; with exactly two parts, look the lowercased month up with
default "01", prefix "20" to a 2-digit year, and convert "year-month-01";
anything else is NaT.  none covers both the NaT return and a raising
to_datetime. -/
def parse_date (s : String) : Option Date :=
  match pySplit '-' s with
  | [p0, p1] =>
    to_datetime_ymd (if p1.length = 2 then "20" ++ p1 else p1)
      ((oldMonths p0.toLower).getD "01")
  | _ => none

deriving instance DecidableEq for Except

/-- Pass-through reading of a numeric column (the dtype-numeric branch of
the value cleaning). -/
def cellPassThrough : Cell → Option ℚ
  | .num q => some q
  | _ => none

/-- The identifier-field invariant the loader establishes: a present field
is strip-stable and is none of the three exact null markers the loader
replaces. -/
def cleanIdOk (x : Option String) : Prop :=
  ∀ t : String, x = some t →
    (pystrip t = t ∧ t ≠ "" ∧ t ≠ "nan" ∧ t ≠ "None")

/-- Fixture: two observations sharing (date, MetricKey) with different
values. -/
def dupObs : List Obs :=
  [⟨⟨2020, 1, 1⟩, some "M", none, none, 1⟩, ⟨⟨2020, 1, 1⟩, some "M", none, none, 3⟩]

/-- Fixture: a fleet metric and an ore metric observed on the same date. -/
def fleetOreObs : List Obs :=
  [⟨⟨2020, 1, 1⟩, some "Active Fleet Count (Aprox)", none, none, 7⟩,
   ⟨⟨2020, 1, 1⟩, some "Ore Mined", some "RGM", some "kt", 5⟩]

/-- Fixture: one ore observation. -/
def oreObs : List Obs := [⟨⟨2020, 1, 1⟩, some "Ore Mined", some "RGM", some "kt", 5⟩]

/-- Fixture: a metric whose key collides with a derived column name,
observed on only one of two dates. -/
def collideObs : List Obs :=
  [⟨⟨2020, 1, 1⟩, some "Total Ore Mined (kt)", none, none, 5⟩,
   ⟨⟨2020, 2, 1⟩, some "X", none, none, 3⟩]

/-- Fixture: a single plain metric. -/
def plainObs : List Obs := [⟨⟨2020, 1, 1⟩, some "M", none, none, 1⟩]

/-- Fixture: a sheet whose category cell is the text " none ". -/
def noneSheet : RawSheet :=
  ⟨["Cat", "Sub", "Unit", "ene-20"],
   [[Cell.text " none ", Cell.empty, Cell.text "kt", Cell.num 5]]⟩

/-- The observation noneSheet loads to. -/
def noneObs : Obs := ⟨⟨2020, 1, 1⟩, some "none", none, some "kt", 5⟩

/-- Fixture: a sheet with one unparseable date token next to a good one. -/
def badDateSheet : RawSheet :=
  ⟨["Cat", "Sub", "Unit", "xyz-20", "ene-20"],
   [[Cell.text "A", Cell.text "B", Cell.text "kt", Cell.num 1, Cell.num 2]]⟩

/-- Fixture: badDateSheet with the bad date column removed. -/
def goodDateSheet : RawSheet :=
  ⟨["Cat", "Sub", "Unit", "ene-20"],
   [[Cell.text "A", Cell.text "B", Cell.text "kt", Cell.num 2]]⟩

/-- Fixture: one row with an unparseable value, one with a parseable one. -/
def mixedValueSheet : RawSheet :=
  ⟨["Cat", "Sub", "Unit", "ene-20"],
   [[Cell.text "A", Cell.text "B", Cell.text "kt", Cell.text "abc"],
    [Cell.text "A2", Cell.text "B", Cell.text "kt", Cell.num 5]]⟩

/-- Fixture: a sheet with only three columns and one data row. -/
def threeColSheet : RawSheet :=
  ⟨["A", "B", "C"], [[Cell.text "x", Cell.text "y", Cell.text "z"]]⟩

/-- Fixture: a two-column sheet with one data row. -/
def twoColSheet : RawSheet := ⟨["A", "B"], [[Cell.num 1]]⟩

/-- Fixture: a sheet with a header row and zero data rows. -/
def noRowsSheet : RawSheet := ⟨["A", "B", "C", "ene-20"], []⟩

set_option maxRecDepth 4000

/-- An optional rational equals a given some when present with the same
numerator and denominator. -/
theorem optQ_eq {o : Option ℚ} {q : ℚ} (h1 : o.isSome = true)
    (h2 : (o.getD 0).num = q.num) (h3 : (o.getD 0).den = q.den) : o = some q := by
  cases o with
  | none => simp at h1
  | some x =>
    simp only [Option.getD_some] at h2 h3
    cases x
    cases q
    simp_all

/-- Column assignment keeps every existing column. -/
theorem setCol_cols_superset (t : AnalysisTable) (n : String) (f : Date → Option ℚ)
    {c : String} (h : c ∈ t.cols) : c ∈ (t.setCol n f).cols := by
  simp only [AnalysisTable.setCol]
  split
  · exact h
  · exact List.mem_append_left _ h

/-- The assigned column is present after assignment. -/
theorem setCol_mem_self (t : AnalysisTable) (n : String) (f : Date → Option ℚ) :
    n ∈ (t.setCol n f).cols := by
  simp only [AnalysisTable.setCol]
  split
  · assumption
  · exact List.mem_append_right _ (List.mem_singleton.mpr rfl)

/-- Column assignment leaves the cells of other columns unchanged. -/
theorem setCol_cell_ne (t : AnalysisTable) (n : String) (f : Date → Option ℚ)
    {d : Date} {c : String} (h : c ≠ n) : (t.setCol n f).cell d c = t.cell d c := by
  simp only [AnalysisTable.setCol]
  exact if_neg h

theorem addTotalOre_mem {t : AnalysisTable} {c : String} (h : c ∈ t.cols) :
    c ∈ (addTotalOre t).cols := by
  simp only [addTotalOre]
  split
  · exact h
  · exact setCol_cols_superset _ _ _ h

theorem addTotalOverburden_mem {t : AnalysisTable} {c : String} (h : c ∈ t.cols) :
    c ∈ (addTotalOverburden t).cols := by
  simp only [addTotalOverburden]
  split
  · exact h
  · exact setCol_cols_superset _ _ _ h

theorem addTotalMaterial_mem {t : AnalysisTable} {c : String} (h : c ∈ t.cols) :
    c ∈ (addTotalMaterial t).cols := by
  simp only [addTotalMaterial]
  split
  · exact h
  · exact setCol_cols_superset _ _ _ h

theorem addEfficiency_mem {t : AnalysisTable} {c : String} (h : c ∈ t.cols) :
    c ∈ (addEfficiency t).cols := by
  simp only [addEfficiency]
  split
  · exact setCol_cols_superset _ _ _ h
  · exact h

theorem addProductivity_mem {t : AnalysisTable} {c : String} (h : c ∈ t.cols) :
    c ∈ (addProductivity t).cols := by
  simp only [addProductivity]
  split
  · exact setCol_cols_superset _ _ _ h
  · exact h

theorem addTotalOre_cell {t : AnalysisTable} {d : Date} {c : String}
    (h : c ≠ "Total Ore Mined (kt)") : (addTotalOre t).cell d c = t.cell d c := by
  simp only [addTotalOre]
  split
  · rfl
  · exact setCol_cell_ne _ _ _ h

theorem addTotalOverburden_cell {t : AnalysisTable} {d : Date} {c : String}
    (h : c ≠ "Total Overburden (kt)") : (addTotalOverburden t).cell d c = t.cell d c := by
  simp only [addTotalOverburden]
  split
  · rfl
  · exact setCol_cell_ne _ _ _ h

theorem addTotalMaterial_cell {t : AnalysisTable} {d : Date} {c : String}
    (h : c ≠ "Total Material (kt)") : (addTotalMaterial t).cell d c = t.cell d c := by
  simp only [addTotalMaterial]
  split
  · rfl
  · exact setCol_cell_ne _ _ _ h

theorem addEfficiency_cell {t : AnalysisTable} {d : Date} {c : String}
    (h : c ≠ "Efficiency (kt per Liter)") : (addEfficiency t).cell d c = t.cell d c := by
  simp only [addEfficiency]
  split
  · exact setCol_cell_ne _ _ _ h
  · rfl

theorem addProductivity_cell {t : AnalysisTable} {d : Date} {c : String}
    (h : c ≠ "Productivity (kt per Fleet)") : (addProductivity t).cell d c = t.cell d c := by
  simp only [addProductivity]
  split
  · exact setCol_cell_ne _ _ _ h
  · rfl

/-- The pivot's column labels come out sorted. -/
theorem pivot_cols_sorted (df : List Obs) : ((pivot_table df).cols).Sorted (· ≤ ·) :=
  List.sorted_insertionSort (· ≤ ·) _

/-- The pivot's column labels are exactly the metric names observed. -/
theorem pivot_cols_mem (df : List Obs) (c : String) :
    c ∈ (pivot_table df).cols ↔ c ∈ df.map metricName := by
  show c ∈ ((df.map metricName).dedup).insertionSort (· ≤ ·) ↔ _
  rw [(List.perm_insertionSort _ _).mem_iff, List.mem_dedup]

/-- The length of a filterMap is the count of inputs it keeps. -/
theorem length_filterMap_eq_countP {α β : Type} (f : α → Option β) (l : List α) :
    (l.filterMap f).length = l.countP (fun a => (f a).isSome) := by
  induction l with
  | nil => rfl
  | cons a t ih =>
    cases hfa : f a <;>
      simp [List.filterMap_cons, hfa, List.countP_cons, ih]

/-- Claim C1 counterexample: two observations share (date, MetricKey) "M"
with the different values 1 and 3, yet get_analysis_dataframe produces a
table whose cell holds their silent average 2 (equal to neither input)
instead of failing with an AmbiguousObservationError. -/
theorem C1_counterexample :
    (get_analysis_dataframe dupObs).cell ⟨2020, 1, 1⟩ "M" = some 2
    ∧ (2 : ℚ) ≠ 1 ∧ (2 : ℚ) ≠ 3 := by
  refine ⟨?_, by norm_num, by norm_num⟩
  with_unfolding_all decide

/-- Claim C1 amended: for any two observations with the same
(date, MetricKey) and differing values, the pivot stage raises nothing and
silently fills the cell with their arithmetic mean (the pandas pivot_table
default aggregation). -/
theorem C1_amended (d : Date) (cat sub unit : Option String) (v1 v2 : ℚ) (h : v1 ≠ v2) :
    (pivot_table [⟨d, cat, sub, unit, v1⟩, ⟨d, cat, sub, unit, v2⟩]).cell d
      (metricName ⟨d, cat, sub, unit, v1⟩) = some ((v1 + v2) / 2) := by
  simp only [pivot_table, List.filter_cons, List.filter_nil, metricName,
    decide_eq_true_eq, and_self, if_true, reduceIte]
  rw [if_neg (by simp)]
  simp only [List.map_cons, List.map_nil, List.sum_cons, List.sum_nil, List.length_cons,
    List.length_nil, Option.some.injEq]
  norm_num

/-- Witness for C1_amended at values 1 and 3. -/
theorem C1_amended_witness :
    (pivot_table [⟨⟨2020, 1, 1⟩, some "M", none, none, 1⟩,
        ⟨⟨2020, 1, 1⟩, some "M", none, none, 3⟩]).cell ⟨2020, 1, 1⟩
      (metricName ⟨⟨2020, 1, 1⟩, some "M", none, none, 1⟩) = some ((1 + 3) / 2) :=
  C1_amended ⟨2020, 1, 1⟩ (some "M") none none 1 3 (by norm_num)

/-- Claim C2 counterexample: with the metrics Active Fleet Count (Aprox)
and Ore Mined - RGM - kt observed, the output columns start with the fleet
column (plain lexicographic order, with derived columns appended), whereas
the claimed canonical sequence puts Ore Mined - RGM first. -/
theorem C2_counterexample :
    (get_analysis_dataframe fleetOreObs).cols =
      ["Active Fleet Count (Aprox)", "Ore Mined - RGM - kt", "Total Ore Mined (kt)",
       "Total Material (kt)", "Productivity (kt per Fleet)"]
    ∧ (get_analysis_dataframe fleetOreObs).cols.indexOf "Active Fleet Count (Aprox)"
        < (get_analysis_dataframe fleetOreObs).cols.indexOf "Ore Mined - RGM - kt" := by
  constructor
  · with_unfolding_all decide
  · with_unfolding_all decide

/-- Claim C2 amended: the pivot's columns are the distinct observed
MetricKeys in ascending lexicographic order; the ordering is therefore
deterministic and invariant under any reordering of the observations (no
canonical preferred-column list is applied; the derived-metric block then
appends its columns at the end). -/
theorem C2_amended (df dg : List Obs) (h : df.Perm dg) :
    (pivot_table df).cols = (pivot_table dg).cols
    ∧ ((pivot_table df).cols).Sorted (· ≤ ·)
    ∧ ∀ c : String, c ∈ (pivot_table df).cols ↔ c ∈ df.map metricName := by
  refine ⟨?_, pivot_cols_sorted df, fun c => pivot_cols_mem df c⟩
  refine List.eq_of_perm_of_sorted ?_ (pivot_cols_sorted df) (pivot_cols_sorted dg)
  exact (List.perm_insertionSort _ _).trans (((h.map metricName).dedup).trans
    (List.perm_insertionSort _ _).symm)

/-- Witness for C2_amended: reversing the two observations leaves the
column list unchanged. -/
theorem C2_amended_witness :
    (pivot_table fleetOreObs).cols = (pivot_table fleetOreObs.reverse).cols :=
  (C2_amended fleetOreObs fleetOreObs.reverse (by with_unfolding_all decide)).1

/-- Claim C3 counterexample: from a lone Ore Mined - RGM - kt observation
the core itself adds the derived columns Total Ore Mined (kt) and
Total Material (kt) with computed values, so derived KPIs do not live only
in the external report layer. -/
theorem C3_counterexample :
    "Total Ore Mined (kt)" ∈ (get_analysis_dataframe oreObs).cols
    ∧ (get_analysis_dataframe oreObs).cell ⟨2020, 1, 1⟩ "Total Ore Mined (kt)" = some 5
    ∧ "Total Material (kt)" ∈ (get_analysis_dataframe oreObs).cols := by
  refine ⟨?_, ?_, ?_⟩ <;> with_unfolding_all decide

/-- Claim C3 amended: whenever any pivot column mentions Ore Mined, the
core appends a computed Total Ore Mined (kt) column to the table it hands
to the report layer (the report layer additionally re-expresses KPIs as
spreadsheet formulas). -/
theorem C3_amended (df : List Obs)
    (h : ((pivot_table df).cols.any (fun c => strContainsSub "Ore Mined" c)) = true) :
    "Total Ore Mined (kt)" ∈ (get_analysis_dataframe df).cols := by
  obtain ⟨c, hc, hp⟩ := List.any_eq_true.mp h
  have hdf : df ≠ [] := by
    intro hnil
    subst hnil
    simp [pivot_table] at hc
  unfold get_analysis_dataframe
  rw [if_neg hdf]
  apply addProductivity_mem
  apply addEfficiency_mem
  apply addTotalMaterial_mem
  apply addTotalOverburden_mem
  have hne : (pivot_table df).cols.filter (fun c => strContainsSub "Ore Mined" c) ≠ [] :=
    List.ne_nil_of_mem (List.mem_filter.mpr ⟨hc, hp⟩)
  simp only [addTotalOre]
  rw [if_neg hne]
  exact setCol_mem_self _ _ _

/-- Witness for C3_amended at the single ore observation. -/
theorem C3_amended_witness :
    "Total Ore Mined (kt)" ∈ (get_analysis_dataframe oreObs).cols :=
  C3_amended oreObs (by with_unfolding_all decide)

set_option maxHeartbeats 1000000 in
/-- Any month code the parse_date dictionary can return. -/
theorem oldMonths_mem {k v : String} (h : oldMonths k = some v) :
    v ∈ ["01", "02", "03", "04", "05", "06", "07", "08", "09", "10", "11", "12"] := by
  unfold oldMonths at h
  repeat' split at h
  all_goals try exact Option.noConfusion h
  all_goals injection h with h
  all_goals subst h
  all_goals decide

/-- Claim C4: for a token splitting into a Spanish month abbreviation
(case-insensitive, via the lowered lookup) and a 2-digit year, parse_date
returns the first day of the mapped month in year "20" prefixed to the two
digits - so ene-20 is January 2020 and dic-99 is December 2099, with no
century rollover. -/
theorem C4_parse_date (s m ys : String) (c1 c2 : Char) (mm : String)
    (hsplit : pySplit '-' s = [m, ys])
    (hm : oldMonths m.toLower = some mm)
    (hys : ys.data = [c1, c2])
    (h1 : c1.isDigit = true) (h2 : c2.isDigit = true) :
    parse_date s = some ⟨2000 + decVal [c1, c2], decVal mm.data, 1⟩ := by
  have hlen : ys.length = 2 := by
    show ys.data.length = 2
    rw [hys]
    rfl
  have hdata : ("20" ++ ys).data = '2' :: '0' :: [c1, c2] := by
    show ("20").data ++ ys.data = _
    rw [hys]
    rfl
  have hmonth := oldMonths_mem hm
  have hmm : mm.data ≠ [] ∧ mm.data.all Char.isDigit = true
      ∧ 1 ≤ decVal mm.data ∧ decVal mm.data ≤ 12 := by
    fin_cases hmonth <;> exact ⟨by decide, by decide, by decide, by decide⟩
  unfold parse_date
  rw [hsplit]
  simp only [hm, Option.getD_some]
  rw [if_pos hlen]
  unfold to_datetime_ymd
  rw [if_pos ?side]
  case side =>
    rw [hdata]
    refine ⟨by simp, ?_, hmm.1, hmm.2.1, hmm.2.2.1, hmm.2.2.2⟩
    simp only [List.all_cons, List.all_nil, h1, h2, Bool.and_true]
    decide
  rw [hdata]
  have hy : decVal ('2' :: '0' :: [c1, c2]) = 2000 + decVal [c1, c2] := by
    have e2 : '2'.toNat = 50 := rfl
    have e0 : '0'.toNat = 48 := rfl
    simp only [decVal, List.foldl, e2, e0]
    omega
  rw [hy]

/-- Witness for C4_parse_date: dic-99 parses to December 2099. -/
theorem C4_parse_date_witness : parse_date "dic-99" = some ⟨2099, 12, 1⟩ := by
  have h := C4_parse_date "dic-99" "dic" "99" '9' '9' "12"
    (by with_unfolding_all decide) (by with_unfolding_all decide)
    (by decide) (by decide) (by decide)
  rw [h]
  with_unfolding_all decide

/-- Claim C5 counterexample: one unparseable date token (xyz-20) makes
load_and_prepare_data fail for the whole sheet, instead of dropping the
rows built from it and keeping the ene-20 rows; the same sheet without the
bad token loads fine. -/
theorem C5_counterexample :
    load_and_prepare_data badDateSheet =
      .error "Failed to parse dates after cleaning. Check date columns."
    ∧ (load_and_prepare_data goodDateSheet).isOk = true := by
  constructor
  · with_unfolding_all decide
  · with_unfolding_all decide

/-- Claim C5 amended: a row whose value cannot be parsed is indeed dropped
non-fatally - when every date token parses, the loader succeeds and
returns exactly one observation per melted row with a parseable value -
but a single unparseable date token is fatal: the loader raises instead of
dropping the affected rows. -/
theorem C5_amended (s : RawSheet) (hrows : s.rows ≠ []) :
    ((∀ lr ∈ melt s, (rowDate lr).isSome = true) →
      ∃ l, load_and_prepare_data s = .ok l
        ∧ l.length = (melt s).countP
            (fun lr => (cleanValue (meltColNumeric s) lr.value).isSome))
    ∧ (∀ lr ∈ melt s, rowDate lr = none → load_and_prepare_data s =
        .error "Failed to parse dates after cleaning. Check date columns.") := by
  constructor
  · intro h
    have hany : ((melt s).any (fun lr => (rowDate lr).isNone)) = false := by
      rw [Bool.eq_false_iff]
      intro hc
      obtain ⟨lr, hmem, hnone⟩ := List.any_eq_true.mp hc
      have := h lr hmem
      simp [Option.isNone_iff_eq_none.mp hnone] at this
    have hok : load_and_prepare_data s = .ok (((melt s).filterMap (fun lr =>
        match cleanValue (meltColNumeric s) lr.value, rowDate lr with
        | some v, some d =>
            some { date := d, category := cleanId lr.cat, subcategory := cleanId lr.sub,
                   unit := cleanId lr.unit, value := v }
        | _, _ => none)).insertionSort Obs.dateLe) := by
      unfold load_and_prepare_data
      rw [if_neg hrows, hany]
      rfl
    refine ⟨_, hok, ?_⟩
    rw [List.Perm.length_eq (List.perm_insertionSort _ _),
      length_filterMap_eq_countP]
    apply List.countP_congr
    intro lr hmem
    have hd := h lr hmem
    rw [Option.isSome_iff_exists] at hd
    obtain ⟨d, hd⟩ := hd
    rw [hd]
    cases cleanValue (meltColNumeric s) lr.value <;> simp
  · intro lr hmem hnone
    have hany : ((melt s).any (fun lr => (rowDate lr).isNone)) = true :=
      List.any_eq_true.mpr ⟨lr, hmem, by simp [hnone]⟩
    unfold load_and_prepare_data
    rw [if_neg hrows, hany]
    rfl

/-- Witness for C5_amended: on a sheet with one bad and one good value one
observation is kept out of two rows, and on the bad-date sheet the loader
raises. -/
theorem C5_amended_witness :
    ((load_and_prepare_data mixedValueSheet).toOption.getD []).length =
      (melt mixedValueSheet).countP
        (fun lr => (cleanValue (meltColNumeric mixedValueSheet) lr.value).isSome)
    ∧ load_and_prepare_data badDateSheet =
        .error "Failed to parse dates after cleaning. Check date columns." := by
  constructor
  · obtain ⟨l, hl, hlen⟩ :=
      (C5_amended mixedValueSheet (by decide)).1 (by with_unfolding_all decide)
    rw [hl]
    simpa using hlen
  · exact (C5_amended badDateSheet (by decide)).2
      ⟨Cell.text "A", Cell.text "B", Cell.text "kt", "xyz-20", Cell.num 1⟩
      (by with_unfolding_all decide) (by with_unfolding_all decide)

/-- Claim C6 counterexample: in a mixed column the already-numeric value
1234.5 does not pass through unchanged - the whole column is stringified
and dot-stripped, so 1234.5 (= 2469/2) becomes 12345, while the text
"1.234,5" in the same column is correctly read as 1234.5. -/
theorem C6_counterexample :
    cleanValueColumn [Cell.text "1.234,5", Cell.num ((2469 : ℚ) / 2)] =
      [some ((2469 : ℚ) / 2), some 12345]
    ∧ (12345 : ℚ) ≠ (2469 : ℚ) / 2 := by
  have hall : ([Cell.text "1.234,5", Cell.num ((2469 : ℚ) / 2)].all Cell.isNumericCell)
      = false := by decide
  refine ⟨?_, by norm_num⟩
  show [cleanValue _ _, cleanValue _ _] = _
  rw [hall]
  refine List.cons_eq_cons.mpr ⟨?_, List.cons_eq_cons.mpr ⟨?_, rfl⟩⟩
  · exact optQ_eq (by with_unfolding_all decide) (by with_unfolding_all decide)
      (by with_unfolding_all decide)
  · exact optQ_eq (by with_unfolding_all decide) (by with_unfolding_all decide)
      (by with_unfolding_all decide)

/-- Claim C6 amended: the cleaning is chosen per column, not per value: a
column of numeric dtype passes through unchanged, "abc" always fails and
is dropped (never defaulted to zero), "1.234,5" in a text column becomes
1234.5, but an already-numeric 1234.5 inside a mixed (object-dtype) column
is corrupted to 12345 by the dot-stripping. -/
theorem C6_amended :
    (∀ col : List Cell, col.all Cell.isNumericCell = true →
      cleanValueColumn col = col.map cellPassThrough)
    ∧ (∀ b : Bool, cleanValue b (Cell.text "abc") = none)
    ∧ cleanValue false (Cell.text "1.234,5") = some ((2469 : ℚ) / 2)
    ∧ cleanValue false (Cell.num ((2469 : ℚ) / 2)) = some 12345 := by
  refine ⟨?_, ?_, ?_, ?_⟩
  · intro col h
    unfold cleanValueColumn
    rw [h]
    have hfun : cleanValue true = cellPassThrough := by
      funext c
      cases c <;> rfl
    rw [hfun]
  · intro b
    cases b
    · with_unfolding_all decide
    · rfl
  · exact optQ_eq (by with_unfolding_all decide) (by with_unfolding_all decide)
      (by with_unfolding_all decide)
  · exact optQ_eq (by with_unfolding_all decide) (by with_unfolding_all decide)
      (by with_unfolding_all decide)

/-- Witness for C6_amended on a small numeric column. -/
theorem C6_amended_witness :
    cleanValueColumn [Cell.num 3, Cell.empty] = [some 3, none] := by
  have h := C6_amended.1 [Cell.num 3, Cell.empty] (by decide)
  rw [h]
  rfl

/-- Claim C7 counterexample: a sheet with only three columns (and a data
row) does not fail - load_and_prepare_data returns an empty observation
set instead of raising a structural input error. -/
theorem C7_counterexample :
    load_and_prepare_data threeColSheet = .ok [] := by
  with_unfolding_all decide

/-- Claim C7 amended: only a sheet with zero raw data rows aborts the
loader ("The specified sheet is empty."); a nonempty sheet with fewer than
four columns yields an empty observation list returned without error (the
fatal check on emptiness lives in the caller, run_analysis). -/
theorem C7_amended (s : RawSheet) :
    (s.rows = [] → load_and_prepare_data s = .error "The specified sheet is empty.")
    ∧ (s.rows ≠ [] → s.header.length ≤ 3 → load_and_prepare_data s = .ok []) := by
  constructor
  · intro h
    unfold load_and_prepare_data
    rw [if_pos h]
  · intro hrows hcols
    have hm : melt s = [] := by
      unfold melt
      rw [Nat.sub_eq_zero_of_le hcols]
      rfl
    unfold load_and_prepare_data
    rw [if_neg hrows, hm]
    rfl

/-- Witness for C7_amended: a two-column sheet with one data row loads to
an empty observation set, and a sheet without data rows aborts. -/
theorem C7_amended_witness :
    load_and_prepare_data twoColSheet = .ok []
    ∧ load_and_prepare_data noRowsSheet = .error "The specified sheet is empty." :=
  ⟨(C7_amended twoColSheet).2 (by decide) (by decide),
   (C7_amended noRowsSheet).1 rfl⟩

/-- After stripping leading whitespace and then trailing whitespace,
stripping leading whitespace again changes nothing. -/
theorem dropWhile_rdropWhile_dropWhile {α : Type} (p : α → Bool) (l : List α) :
    ((l.dropWhile p).rdropWhile p).dropWhile p = (l.dropWhile p).rdropWhile p := by
  rcases List.rdropWhile_prefix p (l.dropWhile p) with ⟨t, ht⟩
  cases hr : List.rdropWhile p (l.dropWhile p) with
  | nil => rfl
  | cons a r =>
    have hcons : l.dropWhile p = a :: (r ++ t) := by
      rw [← ht, hr]
      rfl
    have hid : (l.dropWhile p).dropWhile p = l.dropWhile p := List.dropWhile_idempotent p l
    have hpa : p a = false := by
      by_contra hpa
      rw [Bool.not_eq_false] at hpa
      rw [hcons, List.dropWhile_cons, if_pos hpa] at hid
      have hlen := congrArg List.length hid
      have hle := (List.dropWhile_sublist (l := r ++ t) p).length_le
      simp only [List.length_cons] at hlen
      omega
    rw [List.dropWhile_cons, if_neg (by simp [hpa])]

/-- Python str.strip is idempotent: the loader's identifier fields are
strip-stable. -/
theorem pystrip_idem (x : String) : pystrip (pystrip x) = pystrip x := by
  show (List.rdropWhile Char.isWhitespace
      (List.dropWhile Char.isWhitespace
        (List.rdropWhile Char.isWhitespace
          (List.dropWhile Char.isWhitespace x.data)))).asString = _
  rw [dropWhile_rdropWhile_dropWhile, List.rdropWhile_idempotent]
  rfl

/-- Every identifier produced by cleanId is strip-stable and distinct from
the three exact null markers. -/
theorem cleanId_ok (c : Cell) : cleanIdOk (cleanId c) := by
  intro t ht
  simp only [cleanId] at ht
  split at ht
  · exact Option.noConfusion ht
  · injection ht with ht
    subst ht
    rename_i hcond
    push_neg at hcond
    exact ⟨pystrip_idem _, hcond.1, hcond.2.1, hcond.2.2⟩

/-- Claim C8 counterexample: the category text " none " is trimmed to
"none", which is a textual null marker up to case, yet it survives as a
literal identifier and becomes the MetricKey component "none - kt" - the
replacement matches only the exact strings "", "nan" and "None". -/
theorem C8_counterexample :
    load_and_prepare_data noneSheet = .ok [noneObs]
    ∧ noneObs.category = some "none"
    ∧ metricName noneObs = "none - kt" := by
  refine ⟨?_, rfl, ?_⟩
  · with_unfolding_all decide
  · with_unfolding_all decide

/-- Claim C8 amended: every observation the loader emits has its three
identifier fields whitespace-trimmed, and the exact strings "", "nan" and
"None" (the stringifications of actual missing cells) never appear in
them; the normalization is exact-match, not case-insensitive, so variants
such as "none" or "NaN" do survive into MetricKeys. -/
theorem C8_amended (s : RawSheet) (l : List Obs) (o : Obs)
    (hl : load_and_prepare_data s = .ok l) (ho : o ∈ l) :
    cleanIdOk o.category ∧ cleanIdOk o.subcategory ∧ cleanIdOk o.unit := by
  unfold load_and_prepare_data at hl
  split at hl
  · exact Except.noConfusion hl
  · split at hl
    · exact Except.noConfusion hl
    · rw [Except.ok.injEq] at hl
      subst hl
      rw [(List.perm_insertionSort _ _).mem_iff] at ho
      obtain ⟨lr, hmem, heq⟩ := List.mem_filterMap.mp ho
      rcases hv : cleanValue (meltColNumeric s) lr.value with _ | v <;> rw [hv] at heq
      · exact Option.noConfusion heq
      · rcases hd : rowDate lr with _ | d <;> rw [hd] at heq
        · exact Option.noConfusion heq
        · injection heq with heq
          subst heq
          exact ⟨cleanId_ok lr.cat, cleanId_ok lr.sub, cleanId_ok lr.unit⟩

/-- Witness for C8_amended at noneSheet: the surviving category "none" is
strip-stable and differs from the exact marker "None". -/
theorem C8_amended_witness : pystrip "none" = "none" ∧ "none" ≠ "None" := by
  have h := (C8_amended noneSheet [noneObs] noneObs
    (by with_unfolding_all decide) (by with_unfolding_all decide)).1 "none" rfl
  exact ⟨h.1, h.2.2.2⟩

/-- Claim C9: a run whose observation set is empty after cleaning aborts
with a fatal error before the pivot stage is invoked - the all-rows-failed
case through the controller check, and the zero-data-rows case already in
the loader. -/
theorem C9_empty_fatal (s : RawSheet) :
    (load_and_prepare_data s = .ok [] →
      run_analysis s = .error "No valid data found in the file.")
    ∧ (s.rows = [] → run_analysis s = .error "The specified sheet is empty.") := by
  constructor
  · intro h
    unfold run_analysis
    rw [h]
    rfl
  · intro h
    have hload : load_and_prepare_data s = .error "The specified sheet is empty." := by
      unfold load_and_prepare_data
      rw [if_pos h]
    unfold run_analysis
    rw [hload]

/-- Witness for C9_empty_fatal: a three-column sheet cleans to an empty
observation set and the run aborts; a sheet without data rows aborts in
the loader. -/
theorem C9_empty_fatal_witness :
    run_analysis threeColSheet = .error "No valid data found in the file."
    ∧ run_analysis noRowsSheet = .error "The specified sheet is empty." :=
  ⟨(C9_empty_fatal threeColSheet).1 (by with_unfolding_all decide),
   (C9_empty_fatal noRowsSheet).2 rfl⟩

/-- Claim C10 counterexample: with a base metric literally named
Total Ore Mined (kt) observed on only the first of two dates, the derived
block overwrites that base pivot column - the absent second-date cell
comes back as 0 - so the base pivot columns are not always returned
unmodified. -/
theorem C10_counterexample :
    (pivot_table collideObs).cell ⟨2020, 2, 1⟩ "Total Ore Mined (kt)" = none
    ∧ (get_analysis_dataframe collideObs).cell ⟨2020, 2, 1⟩ "Total Ore Mined (kt)"
        = some 0 := by
  constructor
  · with_unfolding_all decide
  · with_unfolding_all decide

/-- Claim C10 amended: get_analysis_dataframe always returns the pivoted
table (the derived block is guarded and its try/except never lets an error
escape), and every base pivot column whose name is not one of the five
derived column names is present in the output with all its cells
unchanged; a colliding name is overwritten instead. -/
theorem C10_amended (df : List Obs) (c : String) (d : Date)
    (hc : c ∈ (pivot_table df).cols) (hn : c ∉ derivedNames) :
    c ∈ (get_analysis_dataframe df).cols
    ∧ (get_analysis_dataframe df).cell d c = (pivot_table df).cell d c := by
  have hdf : df ≠ [] := by
    intro h
    subst h
    simp [pivot_table] at hc
  have h1 : c ≠ "Total Ore Mined (kt)" := fun h => hn (by rw [h]; simp [derivedNames])
  have h2 : c ≠ "Total Overburden (kt)" := fun h => hn (by rw [h]; simp [derivedNames])
  have h3 : c ≠ "Total Material (kt)" := fun h => hn (by rw [h]; simp [derivedNames])
  have h4 : c ≠ "Efficiency (kt per Liter)" := fun h => hn (by rw [h]; simp [derivedNames])
  have h5 : c ≠ "Productivity (kt per Fleet)" := fun h => hn (by rw [h]; simp [derivedNames])
  unfold get_analysis_dataframe
  rw [if_neg hdf]
  constructor
  · exact addProductivity_mem (addEfficiency_mem (addTotalMaterial_mem
      (addTotalOverburden_mem (addTotalOre_mem hc))))
  · rw [addProductivity_cell h5, addEfficiency_cell h4, addTotalMaterial_cell h3,
      addTotalOverburden_cell h2, addTotalOre_cell h1]

/-- Witness for C10_amended at a single plain metric M. -/
theorem C10_amended_witness :
    "M" ∈ (get_analysis_dataframe plainObs).cols
    ∧ (get_analysis_dataframe plainObs).cell ⟨2020, 1, 1⟩ "M"
        = (pivot_table plainObs).cell ⟨2020, 1, 1⟩ "M" :=
  C10_amended plainObs "M" ⟨2020, 1, 1⟩ (by with_unfolding_all decide) (by decide)

end KTS
